import Mathlib

/-!
Shallow embedding of the offline-fallback data-access layer and the form
validators of the Transport-Management-System front end (the offline-capable
variant of the application).

The embedding models:
* the browser `localStorage` as a partial map from string keys to stored
  collections (JSON round-tripping of plain records is identity, so records
  are kept in parsed form);
* the axios error object as a record of its `code`, `response.status` and
  `message` fields;
* `Date.now()` as an explicit millisecond-clock argument `now : Nat`;
* every observable emission (a `console.warn`, a `console.error`, or a toast
  shown through `NotificationManager.show`) as an `Event` in an event trace.
  Toasts are appended to the page DOM and are thus visible to the end user;
  console output is only visible in the developer console.
-/

namespace TMS

/-- Toast types of the `ToastMessage` interface. -/
inductive ToastType where
  | success
  | error
  | info
  | warning
deriving DecidableEq, Repr

/-- An observable emission of the data layer: developer-console output
(`console.warn` / `console.error`) or a DOM toast (`NotificationManager.show`). -/
inductive Event where
  | consoleWarn (msg : String)
  | consoleError (msg : String)
  | toast (ty : ToastType) (msg : String)
deriving DecidableEq, Repr

/-- Events rendered into the page for the end user: only toasts shown through
`NotificationManager.show` reach the toast container in the DOM. -/
def isUserVisible : Event → Bool
  | Event.toast _ _ => true
  | _ => false

/-- Warning-level console emissions (`console.warn`). -/
def isConsoleWarn : Event → Bool
  | Event.consoleWarn _ => true
  | _ => false

/-- A record stored in a cached collection: an opaque payload plus the
optional `id` property (the spread `\x7b ...data, id: mockId \x7d` sets `id`). -/
structure Rec where
  payload : String
  id : Option String
deriving DecidableEq, Repr

/-- The browser localStorage: a partial map from storage keys to the parsed
stored collection (`JSON.parse` of the stored string). -/
def Store := String → Option (List Rec)

/-- The axios error object: `error.code`, `error.response?.status` (`none`
models an absent `error.response`), and `error.message`. -/
structure AxiosErr where
  code : Option String
  status : Option Nat
  msg : String
deriving DecidableEq, Repr

/-- Whitespace characters trimmed by `String.prototype.trim` (core set). -/
def isWS (c : Char) : Bool := c = ' ' || c = '\t' || c = '\n' || c = '\r'

/-- Decimal digit characters (the regex class `\d`). -/
def isDigitCh (c : Char) : Bool := '0' ≤ c && c ≤ '9'

/-- List-level trimming used by `jsTrim`. -/
def trimChars (l : List Char) : List Char :=
  ((l.dropWhile isWS).reverse.dropWhile isWS).reverse

/-- JavaScript `String.prototype.trim`. -/
def jsTrim (s : String) : String := ⟨trimChars s.data⟩

/-- Helper for substring search: does `pre` occur as a prefix of `l`. -/
def prefixOf : List Char → List Char → Bool
  | [], _ => true
  | _ :: _, [] => false
  | a :: as, b :: bs => a = b && prefixOf as bs

/-- Helper for substring search over the suffixes of the haystack. -/
def inclAux (needle : List Char) : List Char → Bool
  | [] => needle.isEmpty
  | b :: bs => prefixOf needle (b :: bs) || inclAux needle bs

/-- JavaScript `String.prototype.includes`: substring containment. -/
def jsIncludes (s sub : String) : Bool := inclAux sub.data s.data

/-- Decimal digits of `n`, least significant first, by fueled recursion
(`fuel = n` always suffices because the argument shrinks by division). -/
def ddAux : Nat → Nat → List Nat
  | _, 0 => []
  | 0, _ + 1 => []
  | fuel + 1, n + 1 => ((n + 1) % 10) :: ddAux fuel ((n + 1) / 10)

/-- JavaScript `Number.prototype.toString` on a nonnegative integer (the
decimal numeral), used for `Date.now().toString()`. -/
def toDec (n : Nat) : String :=
  if n = 0 then "0"
  else ⟨((ddAux n n).reverse.map (fun d => Char.ofNat (d + 48)))⟩

/-- Numeric value of a most-significant-first digit-character list. -/
def digitsVal (l : List Char) : Nat :=
  l.foldl (fun a c => 10 * a + (c.toNat - 48)) 0

/-- Numeric value of a decimal numeral string. -/
def strVal (s : String) : Nat := digitsVal s.data

/-- Digit-prefix parsing used by `jsParseInt`: take the longest digit prefix,
`none` when there is no digit (the `NaN` outcome). -/
def parseDigits (l : List Char) : Option Int :=
  let ds := l.takeWhile isDigitCh
  if ds.isEmpty then none else some (Int.ofNat (digitsVal ds))

/-- JavaScript `parseInt(s, 10)`: skip leading whitespace, optional sign,
then the longest digit prefix; `none` models `NaN`. -/
def jsParseInt (s : String) : Option Int :=
  match s.data.dropWhile isWS with
  | '+' :: r => parseDigits r
  | '-' :: r => (parseDigits r).map (fun v => -v)
  | r => parseDigits r

/-- Storage keys of the `STORAGE_KEYS` constant. -/
def getStorageKey (endpoint : String) : Option String :=
  if endpoint = "/vehicles" then some "matatu_vehicles"
  else if endpoint = "/tickets" then some "matatu_tickets"
  else if endpoint = "/parcels" then some "matatu_parcels"
  else if endpoint = "/receipts" then some "matatu_receipts"
  else if endpoint = "/reports" then some "matatu_reports"
  else none

/-- The `ApiClient.saveToLocalStorage` method: append the record to the
existing collection of the endpoint and persist; no-op when the endpoint has
no storage key. -/
def saveToLocalStorage (store : Store) (endpoint : String) (r : Rec) : Store :=
  match getStorageKey endpoint with
  | some k => fun key => if key = k then some ((store k).getD [] ++ [r]) else store key
  | none => store

/-- The `ApiClient.getFromLocalStorage` method: look the endpoint's storage
key up and return the parsed stored collection, `none` when absent. -/
def getFromLocalStorage (store : Store) (endpoint : String) : Option (List Rec) :=
  match getStorageKey endpoint with
  | some k => store k
  | none => none

/-- The `ApiClient.syncWithLocalStorage` method: `localStorage.removeItem` on
the endpoint's storage key after a successful post. -/
def syncWithLocalStorage (store : Store) (endpoint : String) : Store :=
  match getStorageKey endpoint with
  | some k => fun key => if key = k then none else store key
  | none => store

/-- Connectivity-failure test used in the catch blocks of `get` and `post`:
`error.code === ECONNABORTED`, or `error.response?.status === 0`, or
`error.message.includes(ECONNREFUSED)`. -/
def isConnFailure (e : AxiosErr) : Bool :=
  e.code = some "ECONNABORTED" || e.status = some 0 || jsIncludes e.msg "ECONNREFUSED"

/-- Message selection of `ApiClient.handleError`. -/
def errorMessageFor (e : AxiosErr) : String :=
  if e.status.isSome then
    if e.status = some 500 then "Server error. Please try again later."
    else if e.status = some 404 then "Resource not found."
    else if e.code = some "ECONNABORTED" then "Request timed out. Please check your connection."
    else "An unexpected error occurred"
  else if jsIncludes e.msg "ECONNREFUSED" then "Backend unavailable. Using local data."
  else "An unexpected error occurred"

/-- The `ApiClient.handleError` method: a `console.error` log followed by one
error toast through `NotificationManager.show`. -/
def handleError (e : AxiosErr) : List Event :=
  [Event.consoleError "API Error", Event.toast ToastType.error (errorMessageFor e)]

/-- Outcome of the network request issued by axios: a decoded response or an
error object. -/
inductive Outcome (β : Type) where
  | ok (resp : β)
  | err (e : AxiosErr)

/-- Result of `ApiClient.get`: server data, cached data from the fallback, or
a re-raised error. -/
inductive GetResult (β : Type) where
  | fromServer (resp : β)
  | fromCache (recs : List Rec)
  | thrown (e : AxiosErr)
deriving DecidableEq

/-- Output of `ApiClient.get`: the result together with the emitted events
(the read path never writes the store). -/
structure GetOut (β : Type) where
  result : GetResult β
  events : List Event
deriving DecidableEq

/-- The `ApiClient.get` method. On success the decoded payload is returned.
On a connectivity failure the local cache is consulted: a hit returns the
cached value after a `console.warn`; otherwise, and on every other failure,
`handleError` runs and the error is re-thrown. -/
def get {β : Type} (store : Store) (endpoint : String) (outcome : Outcome β) : GetOut β :=
  match outcome with
  | Outcome.ok resp => ⟨GetResult.fromServer resp, []⟩
  | Outcome.err e =>
    if isConnFailure e then
      match getFromLocalStorage store endpoint with
      | some recs =>
          ⟨GetResult.fromCache recs,
           [Event.consoleWarn ("Using local storage data for " ++ endpoint ++ " due to connection error")]⟩
      | none => ⟨GetResult.thrown e, handleError e⟩
    else ⟨GetResult.thrown e, handleError e⟩

/-- Identifier field name chosen in the offline branch of `ApiClient.post`
by substring containment on the endpoint, in source order; the empty string
models the initial `let key = ` value kept for unrecognized endpoints. -/
def mockKeyOf (endpoint : String) : String :=
  if jsIncludes endpoint "vehicles" then "vehicle_id"
  else if jsIncludes endpoint "tickets" then "ticket_id"
  else if jsIncludes endpoint "parcels" then "parcel_id"
  else ""

/-- Property lookup on the computed-key object literal returned by the
offline branch of `post`: the object has exactly one property, named `key`. -/
def mockResultField (key id name : String) : Option String :=
  if name = key then some id else none

/-- Result of `ApiClient.post`: server payload, the offline mock object
(represented by its single property name and value), or a re-raised error. -/
inductive PostResult (β : Type) where
  | server (resp : β)
  | mock (key : String) (mockId : String)
  | thrown (e : AxiosErr)
deriving DecidableEq

/-- Output of `ApiClient.post`: result, emitted events, and the updated
localStorage state. -/
structure PostOut (β : Type) where
  result : PostResult β
  events : List Event
  store : Store

/-- The `ApiClient.post` method. On success the response is synced (the
collection of the endpoint is removed) and returned. On a connectivity
failure a mock id `Date.now().toString()` is synthesized, the payload plus
`id` is appended to local storage, a `console.warn` is emitted and the
computed-key object is returned. Every other failure runs `handleError` and
re-throws. -/
def post {β : Type} (store : Store) (endpoint : String) (data : Rec) (now : Nat)
    (outcome : Outcome β) : PostOut β :=
  match outcome with
  | Outcome.ok resp => ⟨PostResult.server resp, [], syncWithLocalStorage store endpoint⟩
  | Outcome.err e =>
    if isConnFailure e then
      let mockId := toDec now
      let mockData := { data with id := some mockId }
      ⟨PostResult.mock (mockKeyOf endpoint) mockId,
       [Event.consoleWarn ("Stored " ++ endpoint ++ " locally due to connection error: " ++ mockId)],
       saveToLocalStorage store endpoint mockData⟩
    else ⟨PostResult.thrown e, handleError e, store⟩

/-- Did a `get` end in a re-raise. -/
def getThrown {β : Type} : GetResult β → Bool
  | GetResult.thrown _ => true
  | _ => false

/-- Did a `post` end in a re-raise. -/
def postThrown {β : Type} : PostResult β → Bool
  | PostResult.thrown _ => true
  | _ => false

/-- List-level matcher for `PHONE_PATTERN`: the anchored pattern is a literal
`+254` or `0`, then one of `1` or `7`, then exactly eight digits. -/
def phoneListTest : List Char → Bool
  | '+' :: '2' :: '5' :: '4' :: c :: rest =>
      (c = '1' || c = '7') && rest.length = 8 && rest.all isDigitCh
  | '0' :: c :: rest =>
      (c = '1' || c = '7') && rest.length = 8 && rest.all isDigitCh
  | _ => false

/-- The `PHONE_PATTERN` regex test on a string. -/
def phoneTest (s : String) : Bool := phoneListTest s.data

/-- Phone-number block of `FormValidator.validateTicketForm` (the
`phoneNumber` field): required when blank, otherwise the trimmed value must
pass `PHONE_PATTERN`. -/
def ticketPhoneError (s : String) : Option String :=
  if jsTrim s = "" then some "Phone number is required"
  else if !phoneTest (jsTrim s) then some "Invalid phone number format"
  else none

/-- Sender-phone block of `FormValidator.validateParcelForm`. -/
def senderPhoneError (s : String) : Option String :=
  if jsTrim s = "" then some "Sender phone is required"
  else if !phoneTest (jsTrim s) then some "Invalid sender phone format"
  else none

/-- Receiver-phone block of `FormValidator.validateParcelForm`. -/
def receiverPhoneError (s : String) : Option String :=
  if jsTrim s = "" then some "Receiver phone is required"
  else if !phoneTest (jsTrim s) then some "Invalid receiver phone format"
  else none

/-- Capacity block of `FormValidator.validateVehicleForm`: required when
blank, otherwise `parseInt(capacity, 10)` must be a number in `[1, 100]`. -/
def capacityFieldError (s : String) : Option String :=
  if jsTrim s = "" then some "Capacity is required"
  else
    match jsParseInt s with
    | none => some "Capacity must be between 1 and 100"
    | some n =>
        if n < 1 || n > 100 then some "Capacity must be between 1 and 100" else none

/-- Sample cached vehicle record used in concrete scenarios. -/
def rec1 : Rec := ⟨"vehicle-A", none⟩

/-- Second sample cached vehicle record. -/
def rec2 : Rec := ⟨"vehicle-B", none⟩

/-- A store holding a previously cached vehicle list of two entries. -/
def cacheStore : Store :=
  fun k => if k = "matatu_vehicles" then some [rec1, rec2] else none

/-- A store holding a single previously cached vehicle record. -/
def oneStore : Store :=
  fun k => if k = "matatu_vehicles" then some [rec1] else none

/-- The empty localStorage. -/
def emptyStore : Store := fun _ => none

/-- A timeout error as raised by axios when the request is aborted. -/
def connErr : AxiosErr := ⟨some "ECONNABORTED", none, "timeout of 5000ms exceeded"⟩

/-- A server failure with HTTP status 500. -/
def serverErr500 : AxiosErr := ⟨none, some 500, "Request failed with status code 500"⟩

/-! Helper lemmas shared by the claim theorems. -/

/-- Fueled digit extraction agrees with `Nat.digits` once the fuel covers the
argument. -/
theorem ddAux_eq_digits : ∀ fuel n, n ≤ fuel → ddAux fuel n = Nat.digits 10 n := by
  intro fuel
  induction fuel with
  | zero =>
    intro n hn
    have h0 : n = 0 := Nat.le_zero.mp hn
    subst h0
    simp [ddAux]
  | succ fuel ih =>
    intro n hn
    match n with
    | 0 => simp [ddAux]
    | m + 1 =>
      have hdiv : (m + 1) / 10 ≤ fuel := by
        have := Nat.div_lt_self (Nat.succ_pos m) (by norm_num : 1 < 10)
        omega
      simp only [ddAux]
      rw [ih ((m + 1) / 10) hdiv,
        ← Nat.digits_def' (by norm_num : (1 : ℕ) < 10) (Nat.succ_pos m)]

/-- Value of a digit-character list grown on the right. -/
theorem digitsVal_append (l : List Char) (c : Char) :
    digitsVal (l ++ [c]) = 10 * digitsVal l + (c.toNat - 48) := by
  simp [digitsVal, List.foldl_append]

/-- Round trip through the digit-character encoding for a single digit. -/
theorem charVal_ofNat (d : Nat) (h : d < 10) : (Char.ofNat (d + 48)).toNat - 48 = d := by
  interval_cases d <;> decide

/-- Value of the most-significant-first character rendering of a digit list. -/
theorem digitsVal_reverse_map (ds : List Nat) (h : ∀ d ∈ ds, d < 10) :
    digitsVal ((ds.reverse).map (fun d => Char.ofNat (d + 48))) = Nat.ofDigits 10 ds := by
  induction ds with
  | nil => simp [digitsVal]
  | cons d ds ih =>
    rw [List.reverse_cons, List.map_append, List.map_cons, List.map_nil, digitsVal_append,
      ih (fun x hx => h x (List.mem_cons_of_mem _ hx)),
      charVal_ofNat d (h d (List.mem_cons_self _ _)), Nat.ofDigits_cons]
    ring

/-- Reading the synthesized decimal identifier back as a number recovers the
clock value. -/
theorem strVal_toDec (n : Nat) : strVal (toDec n) = n := by
  by_cases h0 : n = 0
  · subst h0; decide
  · unfold toDec strVal
    rw [if_neg h0]
    show digitsVal (((ddAux n n).reverse.map (fun d => Char.ofNat (d + 48)))) = n
    rw [ddAux_eq_digits n n le_rfl,
      digitsVal_reverse_map _ (fun d hd => Nat.digits_lt_base (by norm_num) hd),
      Nat.ofDigits_digits]

/-- Dropping while a predicate never holds is the identity. -/
theorem dropWhile_all_false {p : Char → Bool} :
    ∀ {l : List Char}, (∀ c ∈ l, p c = false) → l.dropWhile p = l := by
  intro l h
  cases l with
  | nil => rfl
  | cons a l => simp [List.dropWhile_cons, h a (List.mem_cons_self a l)]

/-- Trimming a list with no whitespace characters is the identity. -/
theorem trimChars_all_false {l : List Char} (h : ∀ c ∈ l, isWS c = false) :
    trimChars l = l := by
  unfold trimChars
  rw [dropWhile_all_false h,
    dropWhile_all_false (fun c hc => h c (List.mem_reverse.mp hc)),
    List.reverse_reverse]

/-- Digit characters are not whitespace. -/
theorem digit_not_ws (c : Char) (h : isDigitCh c = true) : isWS c = false := by
  unfold isWS
  simp only [Bool.or_eq_false_iff, decide_eq_false_iff_not]
  refine ⟨⟨⟨?_, ?_⟩, ?_⟩, ?_⟩ <;> rintro rfl <;> exact absurd h (by decide)

/-- A string matched by the phone pattern contains no whitespace. -/
theorem phoneListTest_not_ws (l : List Char) (h : phoneListTest l = true) :
    ∀ c ∈ l, isWS c = false := by
  unfold phoneListTest at h
  split at h
  · simp only [Bool.and_eq_true, decide_eq_true_eq, Bool.or_eq_true, List.all_eq_true] at h
    intro x hx
    simp only [List.mem_cons] at hx
    rcases hx with rfl | rfl | rfl | rfl | rfl | hx
    · decide
    · decide
    · decide
    · decide
    · rcases h.1.1 with rfl | rfl <;> decide
    · exact digit_not_ws x (h.2 x hx)
  · simp only [Bool.and_eq_true, decide_eq_true_eq, Bool.or_eq_true, List.all_eq_true] at h
    intro x hx
    simp only [List.mem_cons] at hx
    rcases hx with rfl | rfl | hx
    · decide
    · rcases h.1.1 with rfl | rfl <;> decide
    · exact digit_not_ws x (h.2 x hx)
  · exact absurd h (by simp)

/-- A phone-pattern match is already trimmed. -/
theorem phone_trim_fix (s : String) (h : phoneTest s = true) : jsTrim s = s := by
  have hall := phoneListTest_not_ws s.data h
  unfold jsTrim
  rw [trimChars_all_false hall]

/-! Claim theorems. -/

/-- Claim C2 (confirmed): a read that fails with a connectivity failure while
the local cache holds a previously cached payload for the resource path
returns exactly the cached value without raising, and emits exactly one
warning-level notification that local data is being used. -/
theorem c2_confirmed (store : Store) (ep : String) (recs : List Rec) (e : AxiosErr)
    (h1 : isConnFailure e = true) (h2 : getFromLocalStorage store ep = some recs) :
    get (β := Unit) store ep (Outcome.err e) =
      ⟨GetResult.fromCache recs,
       [Event.consoleWarn ("Using local storage data for " ++ ep ++ " due to connection error")]⟩ := by
  simp [get, h1, h2]

/-- Witness for C2: the spec scenario, a read of the vehicles path under a
timeout with a two-entry cached vehicle list. -/
theorem c2_witness :
    isConnFailure connErr = true ∧
    get (β := Unit) cacheStore "/vehicles" (Outcome.err connErr) =
      ⟨GetResult.fromCache [rec1, rec2],
       [Event.consoleWarn "Using local storage data for /vehicles due to connection error"]⟩ := by
  refine ⟨by decide, ?_⟩
  exact c2_confirmed cacheStore "/vehicles" [rec1, rec2] connErr (by decide) (by decide)

/-- Claim C3 (confirmed): a write that succeeds over the network on a path
with a registered collection key returns the server payload unchanged, emits
nothing, and leaves the cached collection for that key cleared (empty)
regardless of any pending offline entries, while all other keys are kept. -/
theorem c3_confirmed {β : Type} (store : Store) (ep : String) (d : Rec) (now : Nat)
    (resp : β) (k : String) (h : getStorageKey ep = some k) :
    (post store ep d now (Outcome.ok resp)).result = PostResult.server resp ∧
    (post store ep d now (Outcome.ok resp)).events = [] ∧
    (post store ep d now (Outcome.ok resp)).store k = none ∧
    ∀ key, key ≠ k → (post store ep d now (Outcome.ok resp)).store key = store key := by
  refine ⟨rfl, rfl, ?_, ?_⟩
  · simp [post, syncWithLocalStorage, h]
  · intro key hk
    simp [post, syncWithLocalStorage, h, hk]

/-- Witness for C3: a successful vehicles write against a cache that held two
pending offline entries; the collection is cleared afterwards. -/
theorem c3_witness :
    getStorageKey "/vehicles" = some "matatu_vehicles" ∧
    (post (β := Unit) cacheStore "/vehicles" rec1 5 (Outcome.ok ())).result =
      PostResult.server () ∧
    (post (β := Unit) cacheStore "/vehicles" rec1 5 (Outcome.ok ())).store "matatu_vehicles" =
      none := by
  have h := c3_confirmed (β := Unit) cacheStore "/vehicles" rec1 5 () "matatu_vehicles" (by decide)
  exact ⟨by decide, h.1, h.2.2.1⟩

/-- Claim C5 (confirmed): for a path with a registered collection mapping,
save followed by load returns the previous sequence with the saved record
appended as the last element, never deduplicating; for a path with no
mapping, save leaves the store unchanged and load returns absent. -/
theorem c5_confirmed (store : Store) (ep : String) (r : Rec) :
    (∀ k, getStorageKey ep = some k →
      getFromLocalStorage (saveToLocalStorage store ep r) ep =
        some ((store k).getD [] ++ [r])) ∧
    (getStorageKey ep = none →
      saveToLocalStorage store ep r = store ∧ getFromLocalStorage store ep = none) := by
  constructor
  · intro k hk
    simp [getFromLocalStorage, saveToLocalStorage, hk]
  · intro hk
    constructor
    · simp [saveToLocalStorage, hk]
    · simp [getFromLocalStorage, hk]

/-- Witness for C5: saving a record already present appends a duplicate as
the last element, and an unmapped path is a no-op with an absent load. -/
theorem c5_witness :
    getStorageKey "/vehicles" = some "matatu_vehicles" ∧
    getFromLocalStorage (saveToLocalStorage oneStore "/vehicles" rec1) "/vehicles" =
      some [rec1, rec1] ∧
    getStorageKey "/unknown" = none ∧
    saveToLocalStorage emptyStore "/unknown" rec1 = emptyStore ∧
    getFromLocalStorage emptyStore "/unknown" = none := by
  have h1 := (c5_confirmed oneStore "/vehicles" rec1).1 "matatu_vehicles" (by decide)
  have h2 := (c5_confirmed emptyStore "/unknown" rec1).2 (by decide)
  refine ⟨by decide, ?_, by decide, h2.1, h2.2⟩
  simpa [oneStore] using h1

/-- Counterexample to claim C1: a read that fails with a connectivity
failure and hits the cache emits no user-visible notification at all (the
only emission is a developer-console warning), so the connectivity-failure
fallback branch is a silent return from the user's point of view. -/
theorem c1_cex :
    isConnFailure connErr = true ∧
    (get (β := Unit) cacheStore "/vehicles" (Outcome.err connErr)).result =
      GetResult.fromCache [rec1, rec2] ∧
    (get (β := Unit) cacheStore "/vehicles" (Outcome.err connErr)).events.filter isUserVisible =
      [] := by
  decide

/-- Claim C1 (amended): on every failed operation, the branches that re-raise
emit exactly one user-visible (toast) notification and no console warning,
while the connectivity-failure fallback branches of get (cache hit) and post
(offline local write) emit exactly one console-level warning and no
user-visible notification. -/
theorem c1_amended (store : Store) (ep : String) (d : Rec) (now : Nat) (e : AxiosErr) :
    ((get (β := Unit) store ep (Outcome.err e)).events.filter isUserVisible).length =
      (if getThrown (get (β := Unit) store ep (Outcome.err e)).result then 1 else 0) ∧
    ((get (β := Unit) store ep (Outcome.err e)).events.filter isConsoleWarn).length =
      (if getThrown (get (β := Unit) store ep (Outcome.err e)).result then 0 else 1) ∧
    ((post (β := Unit) store ep d now (Outcome.err e)).events.filter isUserVisible).length =
      (if postThrown (post (β := Unit) store ep d now (Outcome.err e)).result then 1 else 0) ∧
    ((post (β := Unit) store ep d now (Outcome.err e)).events.filter isConsoleWarn).length =
      (if postThrown (post (β := Unit) store ep d now (Outcome.err e)).result then 0 else 1) := by
  cases hc : isConnFailure e
  · refine ⟨?_, ?_, ?_, ?_⟩ <;>
      simp [get, post, hc, handleError, isUserVisible, isConsoleWarn, getThrown, postThrown]
  · cases hm : getFromLocalStorage store ep <;>
      refine ⟨?_, ?_, ?_, ?_⟩ <;>
      simp [get, post, hc, hm, handleError, isUserVisible, isConsoleWarn, getThrown, postThrown]

/-- Claim C4 (confirmed): an offline write returns the computed-key object
whose single property is the resource-appropriate identifier field from the
fixed lookup (vehicles, tickets, parcels); endpoints the lookup does not
recognize get an object carrying none of the identifier fields. -/
theorem c4_confirmed (store : Store) (ep : String) (d : Rec) (now : Nat) (e : AxiosErr)
    (h : isConnFailure e = true) :
    (post (β := Unit) store ep d now (Outcome.err e)).result =
      PostResult.mock (mockKeyOf ep) (toDec now) ∧
    mockKeyOf "/vehicles" = "vehicle_id" ∧
    mockKeyOf "/tickets" = "ticket_id" ∧
    mockKeyOf "/parcels" = "parcel_id" ∧
    (mockKeyOf ep = "" →
      mockResultField (mockKeyOf ep) (toDec now) "vehicle_id" = none ∧
      mockResultField (mockKeyOf ep) (toDec now) "ticket_id" = none ∧
      mockResultField (mockKeyOf ep) (toDec now) "parcel_id" = none) ∧
    ∀ name, name ≠ mockKeyOf ep → mockResultField (mockKeyOf ep) (toDec now) name = none := by
  refine ⟨by simp [post, h], by decide, by decide, by decide, ?_, ?_⟩
  · intro hk
    rw [hk]
    refine ⟨?_, ?_, ?_⟩ <;> simp [mockResultField]
  · intro name hn
    simp [mockResultField, hn]

/-- Witness for C4: an offline tickets write returns the ticket identifier
field only. -/
theorem c4_witness :
    isConnFailure connErr = true ∧
    (post (β := Unit) emptyStore "/tickets" rec1 9 (Outcome.err connErr)).result =
      PostResult.mock "ticket_id" (toDec 9) := by
  have h := c4_confirmed emptyStore "/tickets" rec1 9 connErr (by decide)
  exact ⟨by decide, by rw [h.1]; decide⟩

/-- Claim C6 (confirmed): a read failing with an HTTP error status in the
range 400 to 599 and no connectivity signal re-raises the error, behaves
identically for every cache state (the cache is never consulted), and emits
exactly one user-facing error toast; on status 500 the message indicates a
server-side problem. -/
theorem c6_confirmed (store store2 : Store) (ep : String) (s : Nat) (e : AxiosErr)
    (h1 : e.status = some s) (h2 : 400 ≤ s) (h3 : s ≤ 599)
    (h4 : e.code ≠ some "ECONNABORTED") (h5 : jsIncludes e.msg "ECONNREFUSED" = false) :
    get (β := Unit) store ep (Outcome.err e) = ⟨GetResult.thrown e, handleError e⟩ ∧
    get (β := Unit) store ep (Outcome.err e) = get (β := Unit) store2 ep (Outcome.err e) ∧
    (handleError e).filter isUserVisible =
      [Event.toast ToastType.error (errorMessageFor e)] ∧
    (s = 500 → errorMessageFor e = "Server error. Please try again later.") := by
  have hs0 : ¬(s = 0) := by omega
  have hcf : isConnFailure e = false := by
    simp [isConnFailure, h1, h5, h4, hs0]
  refine ⟨by simp [get, hcf], by simp [get, hcf], rfl, ?_⟩
  rintro rfl
  simp [errorMessageFor, h1]

/-- Witness for C6: the spec scenario, a reports read failing with status
500 against a populated cache. -/
theorem c6_witness :
    serverErr500.status = some 500 ∧
    get (β := Unit) cacheStore "/reports" (Outcome.err serverErr500) =
      ⟨GetResult.thrown serverErr500, handleError serverErr500⟩ ∧
    get (β := Unit) cacheStore "/reports" (Outcome.err serverErr500) =
      get (β := Unit) emptyStore "/reports" (Outcome.err serverErr500) ∧
    (handleError serverErr500).filter isUserVisible =
      [Event.toast ToastType.error "Server error. Please try again later."] := by
  have h := c6_confirmed cacheStore emptyStore "/reports" 500 serverErr500
    (by decide) (by decide) (by decide) (by decide) (by decide)
  refine ⟨by decide, h.1, h.2.1, ?_⟩
  rw [h.2.2.1, h.2.2.2 rfl]

/-- Counterexample to claim C7: two offline writes in the same session at
the same millisecond clock reading synthesize the very same identifier, so
the identifiers are neither distinct nor strictly ordered. -/
theorem c7_cex :
    (post (β := Unit) emptyStore "/tickets" rec1 1000 (Outcome.err connErr)).result =
      PostResult.mock "ticket_id" (toDec 1000) ∧
    (post (β := Unit)
        ((post (β := Unit) emptyStore "/tickets" rec1 1000 (Outcome.err connErr)).store)
        "/tickets" rec2 1000 (Outcome.err connErr)).result =
      PostResult.mock "ticket_id" (toDec 1000) := by
  exact ⟨rfl, rfl⟩

/-- Claim C7 (amended): the synthesized identifiers are the decimal rendering
of the millisecond clock, so two offline writes at strictly increasing clock
readings get distinct identifiers whose numeric values are strictly ordered;
writes within the same millisecond collide. -/
theorem c7_amended (store : Store) (ep : String) (d1 d2 : Rec) (e1 e2 : AxiosErr)
    (now1 now2 : Nat)
    (h1 : isConnFailure e1 = true) (h2 : isConnFailure e2 = true) (hlt : now1 < now2) :
    (post (β := Unit) store ep d1 now1 (Outcome.err e1)).result =
      PostResult.mock (mockKeyOf ep) (toDec now1) ∧
    (post (β := Unit) ((post (β := Unit) store ep d1 now1 (Outcome.err e1)).store) ep d2 now2
        (Outcome.err e2)).result = PostResult.mock (mockKeyOf ep) (toDec now2) ∧
    toDec now1 ≠ toDec now2 ∧
    strVal (toDec now1) < strVal (toDec now2) := by
  refine ⟨by simp [post, h1], by simp [post, h2], ?_, ?_⟩
  · intro heq
    have hv := congrArg strVal heq
    rw [strVal_toDec, strVal_toDec] at hv
    omega
  · rw [strVal_toDec, strVal_toDec]
    exact hlt

/-- Witness for C7 (amended): clock readings 1 and 2 give distinct, ordered
identifiers. -/
theorem c7_witness :
    isConnFailure connErr = true ∧ (1 : Nat) < 2 ∧
    toDec 1 ≠ toDec 2 ∧ strVal (toDec 1) < strVal (toDec 2) := by
  have h := c7_amended emptyStore "/tickets" rec1 rec2 connErr connErr 1 2
    (by decide) (by decide) (by decide)
  exact ⟨by decide, by decide, h.2.2.1, h.2.2.2⟩

/-- Counterexample to claim C8: a whitespace-only phone input is non-empty
and does not match the phone pattern, yet validation reports the required
error and not the format error. -/
theorem c8_cex :
    ticketPhoneError " " = some "Phone number is required" ∧
    " " ≠ "" ∧
    phoneTest " " = false ∧
    ticketPhoneError " " ≠ some "Invalid phone number format" := by
  decide

/-- Claim C8 (amended): inputs matching the phone pattern are accepted with
no phone error; blank inputs (empty after trimming, including whitespace-only
ones) get the required error; non-blank inputs whose trimmed form fails the
pattern get the format error; required and format errors are mutually
exclusive. This holds for the ticket phone and the parcel sender and
receiver phones. -/
theorem c8_amended (s : String) :
    (phoneTest s = true →
      ticketPhoneError s = none ∧ senderPhoneError s = none ∧ receiverPhoneError s = none) ∧
    (jsTrim s = "" →
      ticketPhoneError s = some "Phone number is required" ∧
      senderPhoneError s = some "Sender phone is required" ∧
      receiverPhoneError s = some "Receiver phone is required") ∧
    (jsTrim s ≠ "" → phoneTest (jsTrim s) = false →
      ticketPhoneError s = some "Invalid phone number format" ∧
      senderPhoneError s = some "Invalid sender phone format" ∧
      receiverPhoneError s = some "Invalid receiver phone format") := by
  refine ⟨?_, ?_, ?_⟩
  · intro h
    have hfix := phone_trim_fix s h
    have hsne : s ≠ "" := by
      intro h0
      rw [h0] at h
      exact absurd h (by decide)
    refine ⟨?_, ?_, ?_⟩ <;>
      simp [ticketPhoneError, senderPhoneError, receiverPhoneError, hsne, hfix, h]
  · intro h
    refine ⟨?_, ?_, ?_⟩ <;>
      simp [ticketPhoneError, senderPhoneError, receiverPhoneError, h]
  · intro h1 h2
    refine ⟨?_, ?_, ?_⟩ <;>
      simp [ticketPhoneError, senderPhoneError, receiverPhoneError, h1, h2]

/-- Witness for C8 (amended): a valid Kenyan mobile number is accepted by
all three phone fields. -/
theorem c8_witness :
    phoneTest "0712345678" = true ∧
    ticketPhoneError "0712345678" = none ∧
    senderPhoneError "0712345678" = none ∧
    receiverPhoneError "0712345678" = none := by
  have h := (c8_amended "0712345678").1 (by decide)
  exact ⟨by decide, h.1, h.2.1, h.2.2⟩

/-- Claim C9 (confirmed): capacity validation accepts the decimal rendering
of every integer in 1 to 100, rejects 0, 101, inputs with no parsable
integer, and empty input, with the required message on empty input and the
range message otherwise, and the two messages differ. -/
theorem c9_confirmed :
    (∀ n, n < 101 → 1 ≤ n → capacityFieldError (toDec n) = none) ∧
    capacityFieldError "0" = some "Capacity must be between 1 and 100" ∧
    capacityFieldError "101" = some "Capacity must be between 1 and 100" ∧
    (∀ s, jsTrim s ≠ "" → jsParseInt s = none →
      capacityFieldError s = some "Capacity must be between 1 and 100") ∧
    capacityFieldError "" = some "Capacity is required" ∧
    capacityFieldError "abc" = some "Capacity must be between 1 and 100" ∧
    ("Capacity is required" : String) ≠ "Capacity must be between 1 and 100" := by
  refine ⟨by decide, by decide, by decide, ?_, by decide, by decide, by decide⟩
  intro s h1 h2
  simp [capacityFieldError, h1, h2]

/-- Witness for C9: capacity 50 is accepted and the non-numeric input abc is
rejected with the range message. -/
theorem c9_witness :
    (50 : Nat) < 101 ∧ (1 : Nat) ≤ 50 ∧ capacityFieldError (toDec 50) = none ∧
    jsTrim "abc" ≠ "" ∧ jsParseInt "abc" = none ∧
    capacityFieldError "abc" = some "Capacity must be between 1 and 100" := by
  refine ⟨by decide, by decide, c9_confirmed.1 50 (by decide) (by decide), by decide, by decide, ?_⟩
  exact c9_confirmed.2.2.2.1 "abc" (by decide) (by decide)

/-- Claim C10 (confirmed): an endpoint containing vehicles, tickets or
parcels as a substring without being exactly one of the three registered
paths makes an offline write return an object that carries a resource
identifier field, while local storage is left completely unchanged. -/
theorem c10_confirmed (store : Store) (ep : String) (d : Rec) (now : Nat) (e : AxiosErr)
    (h1 : isConnFailure e = true)
    (h2 : jsIncludes ep "vehicles" = true ∨ jsIncludes ep "tickets" = true ∨
      jsIncludes ep "parcels" = true)
    (h3 : ep ≠ "/vehicles") (h4 : ep ≠ "/tickets") (h5 : ep ≠ "/parcels") :
    (post (β := Unit) store ep d now (Outcome.err e)).store = store ∧
    (post (β := Unit) store ep d now (Outcome.err e)).result =
      PostResult.mock (mockKeyOf ep) (toDec now) ∧
    (mockKeyOf ep = "vehicle_id" ∨ mockKeyOf ep = "ticket_id" ∨ mockKeyOf ep = "parcel_id") ∧
    mockResultField (mockKeyOf ep) (toDec now) (mockKeyOf ep) = some (toDec now) := by
  have hr : ep ≠ "/receipts" := by
    rintro rfl
    rcases h2 with h | h | h <;> exact absurd h (by decide)
  have hp : ep ≠ "/reports" := by
    rintro rfl
    rcases h2 with h | h | h <;> exact absurd h (by decide)
  have hkey : getStorageKey ep = none := by
    unfold getStorageKey
    rw [if_neg h3, if_neg h4, if_neg h5, if_neg hr, if_neg hp]
  refine ⟨?_, by simp [post, h1], ?_, by simp [mockResultField]⟩
  · simp [post, h1, saveToLocalStorage, hkey]
  · rcases h2 with h | h | h
    · simp [mockKeyOf, h]
    · cases hv : jsIncludes ep "vehicles" <;> simp [mockKeyOf, hv, h]
    · cases hv : jsIncludes ep "vehicles" <;> cases ht : jsIncludes ep "tickets" <;>
        simp [mockKeyOf, hv, ht, h]

/-- Witness for C10: the endpoint of the form /vehicles/extra returns the
vehicle identifier field offline while the store stays empty. -/
theorem c10_witness :
    isConnFailure connErr = true ∧
    jsIncludes "/vehicles/extra" "vehicles" = true ∧
    (post (β := Unit) emptyStore "/vehicles/extra" rec1 7 (Outcome.err connErr)).store =
      emptyStore ∧
    (post (β := Unit) emptyStore "/vehicles/extra" rec1 7 (Outcome.err connErr)).result =
      PostResult.mock "vehicle_id" (toDec 7) := by
  have h := c10_confirmed emptyStore "/vehicles/extra" rec1 7 connErr (by decide)
    (Or.inl (by decide)) (by decide) (by decide) (by decide)
  refine ⟨by decide, by decide, h.1, ?_⟩
  rw [h.2.1]
  decide

end TMS
